import Mathlib

/-!
Shallow embedding of the order identity and lifecycle subsystem of the
repository: the order controller (createOrder, updateOrderStatus,
getAllOrders, getOrderStats), the pre-save order-identifier hook of the
Order model, and the atomic sequence counter behind it.

JS numbers carrying currency amounts are embedded as rationals; the
document store is a list of order documents plus the counter state,
threaded explicitly.
-/

namespace Bba

/-- Little-endian decimal digits of a natural number, with explicit fuel so
that the definition is structurally recursive.  `decDigits n n` is total for
the actual argument because a number never has more decimal digits than its
own value. -/
def decDigits : Nat → Nat → List Nat
  | 0, _ => []
  | fuel + 1, n => if n = 0 then [] else n % 10 :: decDigits fuel (n / 10)

/-- Value of a little-endian decimal digit list. -/
def decVal : List Nat → Nat
  | [] => 0
  | d :: ds => d + 10 * decVal ds

/-- Decimal rendering of a natural number, modelling the JS
`Number.prototype.toString` call used by the pre-save hook. -/
def natToDecimal (n : Nat) : String :=
  if n = 0 then "0" else ⟨((decDigits n n).reverse.map Nat.digitChar)⟩

/-- The rendered order identifier for an allocated sequence value `v`:
`ORD` followed by the decimal rendering of `100000 + v`
(src/models/Order.js line 51). -/
def renderOrderId (v : Nat) : String :=
  "ORD" ++ natToDecimal (100000 + v)

/-- The counter primitive of src/models/Order.js lines 46-50: a
findOneAndUpdate call on the orderId counter row with an increment of 1,
returning the new value and creating the row if absent, in one indivisible
fetch-and-increment.
Input is the stored sequence, output is the value returned to the caller
paired with the new stored sequence; both are the post-increment value. -/
def counterAlloc (seq : Nat) : Nat × Nat :=
  (seq + 1, seq + 1)

/-- The sequence of values handed out by `n` counter allocations starting
from stored sequence `s`.  Because each allocation is a single indivisible
storage step, any concurrent execution of `n` callers linearizes to exactly
such a run, in some order of the callers. -/
def allocRun (s : Nat) : Nat → List Nat
  | 0 => []
  | n + 1 =>
    let (v, s') := counterAlloc s
    v :: allocRun s' n

/-- One product line item as submitted in the request body to createOrder
(src/unnamed/part_000): `_id`, `name`, `price`, `quantity`, optional
`images` and `category`. -/
structure ProductInput where
  id : String
  name : String
  price : ℚ
  quantity : ℚ
  images : Option (List String)
  category : Option String
deriving DecidableEq

/-- One embedded product entry of a persisted order document
(src/unnamed/part_000 lines 40-47). -/
structure OrderProduct where
  productId : String
  name : String
  price : ℚ
  quantity : ℚ
  images : List String
  category : String
deriving DecidableEq

/-- Modelled from the spec: the denormalized Order schema variant wired into
the active controller (spec sections 3 and 9) is not among the source files;
src/models/Order.js holds the divergent product-referenced variant.  The
document carries the denormalized customer snapshot, the financial fields,
and the mongoose runtime flag `isNew` used by the pre-save hook of
src/models/Order.js lines 43-54. -/
structure OrderDoc where
  user : String
  customerId : String
  customerName : String
  customerPhone : String
  customerEmail : String
  customerAddress : String
  orderId : String
  products : List OrderProduct
  totalAmount : ℚ
  subtotal : ℚ
  tax : ℚ
  shipping : ℚ
  deliveryAddress : String
  paymentMethod : String
  status : String
  orderDate : Nat
  createdAt : Nat
  isNew : Bool
deriving DecidableEq

/-- Modelled from the spec: the status vocabulary of the active schema
variant (spec section 4.2). -/
def statusEnum : List String :=
  ["order_confirmed", "processing", "packed", "shipped", "out_for_delivery",
   "delivered", "cancelled"]

/-- The closed payment-method set (spec section 3; also the enum of
src/models/Order.js lines 33-37). -/
def paymentEnum : List String :=
  ["cash", "wallet", "card", "upi"]

/-- Modelled from the spec: mongoose enum validation of the active schema
variant, restricting `status` and `paymentMethod` to their closed sets. -/
def validOrder (doc : OrderDoc) : Bool :=
  statusEnum.contains doc.status && paymentEnum.contains doc.paymentMethod

/-- The pre-save hook of src/models/Order.js lines 43-54: on a new document
without an identifier, atomically allocate the next sequence value and
render the identifier; otherwise do nothing.  Returns the new counter state
and the (possibly updated) document. -/
def preSaveHook (seq : Nat) (doc : OrderDoc) : Nat × OrderDoc :=
  if doc.isNew && doc.orderId == "" then
    let (v, seq') := counterAlloc seq
    (seq', { doc with orderId := renderOrderId v })
  else
    (seq, doc)

/-- Saving a document: run the pre-save hook, validate, and persist.  On
validation failure the document is not persisted but an allocated sequence
value stays consumed.  A saved document is no longer new. -/
def saveOrder (seq : Nat) (doc : OrderDoc) : Nat × Option OrderDoc :=
  let (seq', doc') := preSaveHook seq doc
  if validOrder doc' then (seq', some { doc' with isNew := false })
  else (seq', none)

/-- A registered user as returned by `Registration.findById`
(src/unnamed/part_000 line 18). -/
structure RegUser where
  id : String
  customerId : String
  name : String
  phoneNumber : String
  email : Option String
  address : String
deriving DecidableEq

/-- The success payload of createOrder (src/unnamed/part_000 lines 71-76). -/
structure CreateOrderResult where
  orderId : String
  totalAmount : ℚ
  status : String
  orderDate : Nat
deriving DecidableEq

/-- The three response shapes of createOrder: 404 user not found, 201
created, 500 catch-all. -/
inductive CreateOrderResponse where
  | userNotFound
  | created (r : CreateOrderResult)
  | serverError
deriving DecidableEq

/-- createOrder (src/unnamed/part_000 lines 5-87).  State is the list of
persisted orders and the counter sequence; `now` is the creation clock
reading.  Financial fields follow lines 27-30 verbatim; the order document
follows lines 33-55; the response follows lines 68-77. -/
def createOrder (users : List RegUser) (orders : List OrderDoc) (seq : Nat)
    (now : Nat) (userId : String) (products : List ProductInput)
    (deliveryAddress : String) (paymentMethod : String) (useWallet : Bool) :
    CreateOrderResponse × List OrderDoc × Nat :=
  match users.find? (fun u => u.id == userId) with
  | none => (.userNotFound, orders, seq)
  | some user =>
    let subtotal := products.foldl (fun total item => total + item.price * item.quantity) 0
    let tax := subtotal * (8 / 100)
    let shipping := if subtotal > 499 then 0 else 599 / 100
    let totalAmount := subtotal + tax + shipping
    let orderData : OrderDoc :=
      { user := userId
        customerId := user.customerId
        customerName := user.name
        customerPhone := user.phoneNumber
        customerEmail := user.email.getD ""
        customerAddress := user.address
        orderId := ""
        products := products.map (fun item =>
          { productId := item.id
            name := item.name
            price := item.price
            quantity := item.quantity
            images := item.images.getD []
            category := item.category.getD "General" })
        totalAmount := totalAmount
        subtotal := subtotal
        tax := tax
        shipping := shipping
        deliveryAddress := deliveryAddress
        paymentMethod := if useWallet then "wallet" else paymentMethod
        status := "order_confirmed"
        orderDate := now
        createdAt := now
        isNew := true }
    match saveOrder seq orderData with
    | (seq', some saved) =>
      (.created { orderId := saved.orderId
                  totalAmount := saved.totalAmount
                  status := saved.status
                  orderDate := saved.orderDate },
       orders ++ [saved], seq')
    | (seq', none) => (.serverError, orders, seq')

/-- The response shapes of updateOrderStatus: 404 order not found, success,
500 catch-all. -/
inductive UpdateStatusResponse where
  | orderNotFound
  | updated (orderId status : String)
  | serverError
deriving DecidableEq

/-- Lookup by identifier followed by hydration: a document loaded from
the store is not new. -/
def dbFindOne (orders : List OrderDoc) (oid : String) : Option OrderDoc :=
  (orders.find? (fun o => o.orderId == oid)).map (fun o => { o with isNew := false })

/-- updateOrderStatus (src/unnamed/part_000 lines 128-164): look the order
up by identifier, overwrite its status field with the requested value, and
save.  No check of the current status is performed. -/
def updateOrderStatus (orders : List OrderDoc) (seq : Nat)
    (oid status : String) : UpdateStatusResponse × List OrderDoc × Nat :=
  match dbFindOne orders oid with
  | none => (.orderNotFound, orders, seq)
  | some order =>
    let order' := { order with status := status }
    match saveOrder seq order' with
    | (seq', some saved) =>
      (.updated saved.orderId saved.status,
       orders.map (fun o => if o.orderId == oid then saved else o), seq')
    | (seq', none) => (.serverError, orders, seq')

/-- Insertion step of sorting by creation time, newest first. -/
def insertByDateDesc (o : OrderDoc) : List OrderDoc → List OrderDoc
  | [] => [o]
  | x :: xs =>
    if x.createdAt ≤ o.createdAt then o :: x :: xs
    else x :: insertByDateDesc o xs

/-- The sort step of the query pipeline: the matching documents ordered by
creation time, newest first. -/
def sortByDateDesc : List OrderDoc → List OrderDoc
  | [] => []
  | x :: xs => insertByDateDesc x (sortByDateDesc xs)

/-- Ceiling of the division of two naturals, modelling the JS real-number
division followed by Math.ceil. -/
def ceilDiv (a b : Nat) : Nat :=
  ⌈(a : ℚ) / (b : ℚ)⌉₊

/-- The status filter of getAllOrders (src/unnamed/part_000 lines 172-175):
the filter applies only when a status parameter is present, truthy, and not
the sentinel `all`. -/
def queryPred (status : Option String) (o : OrderDoc) : Bool :=
  match status with
  | some s => if !(s == "") && !(s == "all") then o.status == s else true
  | none => true

/-- One product entry of the admin projection (src/unnamed/part_000 lines
192-198). -/
structure AdminOrderProduct where
  name : String
  price : ℚ
  quantity : ℚ
  total : ℚ
  category : String
deriving DecidableEq

/-- The admin projection of an order (src/unnamed/part_000 lines 186-204). -/
structure AdminOrderView where
  orderId : String
  customerName : String
  customerPhone : String
  customerEmail : String
  customerAddress : String
  products : List AdminOrderProduct
  totalAmount : ℚ
  status : String
  paymentMethod : String
  orderDate : Nat
  deliveryAddress : String
deriving DecidableEq

/-- Projection of one order document to its admin view. -/
def adminView (o : OrderDoc) : AdminOrderView :=
  { orderId := o.orderId
    customerName := o.customerName
    customerPhone := o.customerPhone
    customerEmail := o.customerEmail
    customerAddress := o.customerAddress
    products := o.products.map (fun p =>
      { name := p.name
        price := p.price
        quantity := p.quantity
        total := p.price * p.quantity
        category := p.category })
    totalAmount := o.totalAmount
    status := o.status
    paymentMethod := o.paymentMethod
    orderDate := o.orderDate
    deliveryAddress := o.deliveryAddress }

/-- Pagination metadata (src/unnamed/part_000 lines 209-215). -/
structure Pagination where
  currentPage : Nat
  totalPages : Nat
  totalOrders : Nat
  hasNextPage : Bool
  hasPrevPage : Bool
deriving DecidableEq

/-- Response of the admin listing. -/
structure AdminOrdersResponse where
  data : List AdminOrderView
  pagination : Pagination
deriving DecidableEq

/-- getAllOrders (src/unnamed/part_000 lines 167-225): filter by the
optional status, sort newest first, skip `(page - 1) * limit`, take
`limit`, and attach pagination metadata computed from the total matching
count. -/
def getAllOrders (orders : List OrderDoc) (page limit : Nat)
    (status : Option String) : AdminOrdersResponse :=
  let skip := (page - 1) * limit
  let found := ((sortByDateDesc (orders.filter (queryPred status))).drop skip).take limit
  let totalOrders := (orders.filter (queryPred status)).length
  let totalPages := ceilDiv totalOrders limit
  { data := found.map adminView
    pagination :=
      { currentPage := page
        totalPages := totalPages
        totalOrders := totalOrders
        hasNextPage := decide (page < totalPages)
        hasPrevPage := decide (page > 1) } }

/-- The in-flight status set of getOrderStats (src/unnamed/part_000 lines
232-234). -/
def pendingStatusSet : List String :=
  ["order_confirmed", "processing", "packed", "shipped", "out_for_delivery"]

/-- The statistics payload (src/unnamed/part_000 lines 250-257). -/
structure OrderStats where
  totalOrders : Nat
  deliveredOrders : Nat
  pendingOrders : Nat
  totalRevenue : ℚ
  avgOrderValue : ℚ
  customerCount : Nat
deriving DecidableEq

/-- getOrderStats (src/unnamed/part_000 lines 228-267): document counts per
status group, revenue summed over delivered orders, and the average order
value guarded against an empty collection. -/
def getOrderStats (orders : List OrderDoc) (customerCount : Nat) : OrderStats :=
  let totalOrders := orders.length
  let deliveredOrders := (orders.filter (fun o => o.status == "delivered")).length
  let pendingOrders := (orders.filter (fun o => pendingStatusSet.contains o.status)).length
  let totalRevenue := ((orders.filter (fun o => o.status == "delivered")).map
    (fun o => o.totalAmount)).sum
  let avgOrderValue := if totalOrders > 0 then totalRevenue / (totalOrders : ℚ) else 0
  { totalOrders := totalOrders
    deliveredOrders := deliveredOrders
    pendingOrders := pendingOrders
    totalRevenue := totalRevenue
    avgOrderValue := avgOrderValue
    customerCount := customerCount }

/-- Test fixture: a registered user. -/
def sampleUser : RegUser :=
  { id := "u1", customerId := "CUST1", name := "Asha", phoneNumber := "999"
    email := some "a@x.y", address := "12 Lane" }

/-- Test fixture: a stored order with the given identifier, status, amount
and creation time; the remaining fields are fixed plausible values. -/
def mkOrder (oid status : String) (amount : ℚ) (t : Nat) : OrderDoc :=
  { user := "u1", customerId := "CUST1", customerName := "Asha"
    customerPhone := "999", customerEmail := "a@x.y", customerAddress := "12 Lane"
    orderId := oid, products := [], totalAmount := amount, subtotal := amount
    tax := 0, shipping := 0, deliveryAddress := "12 Lane", paymentMethod := "cash"
    status := status, orderDate := t, createdAt := t, isNew := false }

/-- Test fixture: a freshly constructed, not yet persisted document. -/
def freshOrder : OrderDoc :=
  { mkOrder "" "order_confirmed" 648 5 with isNew := true }

/-- Test fixture: a line item with price 300 and quantity 2. -/
def item300x2 : ProductInput :=
  { id := "p1", name := "Widget", price := 300, quantity := 2
    images := none, category := none }

/-- Test fixture: a line item with price 50 and quantity 1. -/
def item50x1 : ProductInput :=
  { id := "p2", name := "Gadget", price := 50, quantity := 1
    images := some ["i.png"], category := some "Toys" }

/-! ## General lemmas -/

theorem decDigits_lt_ten : ∀ (fuel n : Nat), ∀ d ∈ decDigits fuel n, d < 10 := by
  intro fuel
  induction fuel with
  | zero => intro n d hd; simp [decDigits] at hd
  | succ f ih =>
    intro n d hd
    by_cases hn : n = 0
    · simp [decDigits, hn] at hd
    · simp only [decDigits, if_neg hn, List.mem_cons] at hd
      rcases hd with rfl | hd
      · exact Nat.mod_lt _ (by decide)
      · exact ih _ _ hd

theorem decVal_decDigits : ∀ (fuel n : Nat), n ≤ fuel → decVal (decDigits fuel n) = n := by
  intro fuel
  induction fuel with
  | zero => intro n h; obtain rfl := Nat.le_zero.mp h; rfl
  | succ f ih =>
    intro n h
    by_cases hn : n = 0
    · subst hn; simp [decDigits, decVal]
    · have hlt : n / 10 < n := Nat.div_lt_self (Nat.pos_of_ne_zero hn) (by decide)
      have hdiv : n / 10 ≤ f := by omega
      simp only [decDigits, if_neg hn, decVal, ih _ hdiv]
      omega

theorem digitChar_injOn_fin :
    ∀ a b : Fin 10, Nat.digitChar a.val = Nat.digitChar b.val → a = b := by decide

theorem digitChar_inj_of_lt {a b : Nat} (ha : a < 10) (hb : b < 10)
    (h : Nat.digitChar a = Nat.digitChar b) : a = b :=
  congrArg Fin.val (digitChar_injOn_fin ⟨a, ha⟩ ⟨b, hb⟩ h)

theorem map_digitChar_inj :
    ∀ (l1 l2 : List Nat), (∀ d ∈ l1, d < 10) → (∀ d ∈ l2, d < 10) →
      l1.map Nat.digitChar = l2.map Nat.digitChar → l1 = l2 := by
  intro l1
  induction l1 with
  | nil => intro l2 _ _ h; cases l2 <;> simp_all
  | cons a t ih =>
    intro l2 h1 h2 h
    cases l2 with
    | nil => simp at h
    | cons b t2 =>
      simp only [List.map_cons, List.cons.injEq] at h
      obtain rfl := digitChar_inj_of_lt (h1 a (by simp)) (h2 b (by simp)) h.1
      have ht := ih t2 (fun d hd => h1 d (by simp [hd]))
        (fun d hd => h2 d (by simp [hd])) h.2
      rw [ht]

theorem natToDecimal_inj {m n : Nat} (hm : m ≠ 0) (hn : n ≠ 0)
    (h : natToDecimal m = natToDecimal n) : m = n := by
  unfold natToDecimal at h
  rw [if_neg hm, if_neg hn] at h
  have hdata : (decDigits m m).reverse.map Nat.digitChar
      = (decDigits n n).reverse.map Nat.digitChar := congrArg String.data h
  have h1 : ∀ d ∈ (decDigits m m).reverse, d < 10 :=
    fun d hd => decDigits_lt_ten m m d (List.mem_reverse.mp hd)
  have h2 : ∀ d ∈ (decDigits n n).reverse, d < 10 :=
    fun d hd => decDigits_lt_ten n n d (List.mem_reverse.mp hd)
  have hrev := map_digitChar_inj _ _ h1 h2 hdata
  have hdig : decDigits m m = decDigits n n := List.reverse_injective hrev
  have hval := congrArg decVal hdig
  rwa [decVal_decDigits m m le_rfl, decVal_decDigits n n le_rfl] at hval

theorem renderOrderId_injective : Function.Injective renderOrderId := by
  intro a b h
  unfold renderOrderId at h
  have hdata := congrArg String.data h
  simp only [String.data_append] at hdata
  have h2 : (natToDecimal (100000 + a)).data = (natToDecimal (100000 + b)).data :=
    List.append_cancel_left hdata
  have h3 : natToDecimal (100000 + a) = natToDecimal (100000 + b) := String.ext h2
  have h4 : 100000 + a = 100000 + b :=
    natToDecimal_inj (by omega) (by omega) h3
  omega

theorem allocRun_eq_range' (s n : Nat) : allocRun s n = List.range' (s + 1) n := by
  induction n generalizing s with
  | zero => rfl
  | succ k ih => simp [allocRun, counterAlloc, ih, List.range']

theorem ceilDiv_eq (a b : Nat) (hb : 0 < b) : ceilDiv a b = (a + b - 1) / b := by
  have hbq : (0 : ℚ) < (b : ℚ) := by exact_mod_cast hb
  unfold ceilDiv
  apply le_antisymm
  · apply Nat.ceil_le.mpr
    rw [div_le_iff₀ hbq]
    have hmul : a ≤ (a + b - 1) / b * b := by
      have hx := (Nat.div_le_iff_le_mul_add_pred hb (a := a + b - 1)).mp le_rfl
      have hcomm : b * ((a + b - 1) / b) = (a + b - 1) / b * b := Nat.mul_comm _ _
      rw [hcomm] at hx
      generalize (a + b - 1) / b * b = m at hx ⊢
      omega
    exact_mod_cast hmul
  · set c := ⌈(a : ℚ) / (b : ℚ)⌉₊ with hc
    have hle : (a : ℚ) / (b : ℚ) ≤ (c : ℚ) := Nat.le_ceil _
    rw [div_le_iff₀ hbq] at hle
    have hac : a ≤ c * b := by exact_mod_cast hle
    rw [Nat.div_le_iff_le_mul_add_pred hb]
    have hcomm : b * c = c * b := Nat.mul_comm _ _
    rw [hcomm]
    generalize c * b = m at hac ⊢
    omega

theorem saveOrder_new (seq : Nat) (doc : OrderDoc) (hnew : doc.isNew = true)
    (hid : doc.orderId = "") (hvs : doc.status ∈ statusEnum)
    (hvp : doc.paymentMethod ∈ paymentEnum) :
    saveOrder seq doc =
      (seq + 1, some { doc with orderId := renderOrderId (seq + 1), isNew := false }) := by
  simp [saveOrder, preSaveHook, counterAlloc, validOrder, hnew, hid, hvs, hvp]

theorem saveOrder_old (seq : Nat) (doc : OrderDoc) (hold : doc.isNew = false)
    (hvs : doc.status ∈ statusEnum) (hvp : doc.paymentMethod ∈ paymentEnum) :
    saveOrder seq doc = (seq, some { doc with isNew := false }) := by
  simp [saveOrder, preSaveHook, validOrder, hold, hvs, hvp]

theorem foldl_add_mul (l : List ProductInput) (a : ℚ) :
    l.foldl (fun total item => total + item.price * item.quantity) a
      = a + (l.map (fun i => i.price * i.quantity)).sum := by
  induction l generalizing a with
  | nil => simp
  | cons x xs ih => simp [List.foldl_cons, ih, add_assoc]

theorem le_pred_div_mul (a b : Nat) (hb : 0 < b) : a ≤ (a + b - 1) / b * b := by
  have hx := (Nat.div_le_iff_le_mul_add_pred hb (a := a + b - 1)).mp le_rfl
  have hcomm : b * ((a + b - 1) / b) = (a + b - 1) / b * b := Nat.mul_comm _ _
  rw [hcomm] at hx
  generalize (a + b - 1) / b * b = m at hx ⊢
  omega

theorem length_insertByDateDesc (o : OrderDoc) (l : List OrderDoc) :
    (insertByDateDesc o l).length = l.length + 1 := by
  induction l with
  | nil => rfl
  | cons x xs ih =>
    by_cases h : x.createdAt ≤ o.createdAt <;> simp [insertByDateDesc, h, ih]

theorem length_sortByDateDesc (l : List OrderDoc) :
    (sortByDateDesc l).length = l.length := by
  induction l with
  | nil => rfl
  | cons x xs ih => simp [sortByDateDesc, length_insertByDateDesc, ih]

theorem sum_filter_delivered (orders : List OrderDoc) :
    ((orders.filter (fun o => o.status == "delivered")).map
        (fun o => o.totalAmount)).sum
      = (orders.map
          (fun o => if o.status = "delivered" then o.totalAmount else 0)).sum := by
  induction orders with
  | nil => rfl
  | cons x xs ih =>
    by_cases h : x.status = "delivered" <;> simp [List.filter_cons, h, ih]

/-! ## Claim theorems -/

/-- C1: for every N concurrent createOrder calls, the N resulting orderId
values are pairwise distinct.  Each call performs its counter access as one
indivisible fetch-and-increment, so a concurrent execution of N calls
linearizes to a run of N allocations `allocRun s N`, in the order the
storage layer serialized them; the rendered identifiers of such a run never
repeat. -/
theorem createOrder_orderIds_pairwise_distinct (s n : Nat) :
    ((allocRun s n).map renderOrderId).Nodup := by
  rw [allocRun_eq_range' s n]
  exact (List.nodup_range' _ _).map renderOrderId_injective

theorem updateOrderStatus_spec (orders : List OrderDoc) (seq : Nat)
    (oid s : String) (o : OrderDoc)
    (hfind : orders.find? (fun x => x.orderId == oid) = some o)
    (hs : s ∈ statusEnum)
    (hp : o.paymentMethod ∈ paymentEnum) :
    updateOrderStatus orders seq oid s =
      (.updated o.orderId s,
       orders.map (fun x =>
         if x.orderId == oid then { o with status := s, isNew := false } else x),
       seq) := by
  simp only [updateOrderStatus, dbFindOne, hfind, Option.map_some']
  simp [saveOrder, preSaveHook, validOrder, hs, hp]

/-- C2 as stated is false: updateOrderStatus on an order currently
delivered succeeds and overwrites the status, instead of failing with
InvalidTransition and leaving the status unchanged. -/
theorem terminal_update_succeeds_counterexample :
    (updateOrderStatus [mkOrder "ORD100001" "delivered" 648 5] 7
        "ORD100001" "processing").1
      = .updated "ORD100001" "processing"
    ∧ ((updateOrderStatus [mkOrder "ORD100001" "delivered" 648 5] 7
        "ORD100001" "processing").2.1.map (fun o => o.status)) = ["processing"] := by
  decide

/-- C2 corrected: updateOrderStatus performs no transition validation; on
an order whose current status is delivered or cancelled, any requested
status of the vocabulary is applied and the call reports success. -/
theorem updateOrderStatus_ignores_terminal (orders : List OrderDoc) (seq : Nat)
    (oid s : String) (o : OrderDoc)
    (hfind : orders.find? (fun x => x.orderId == oid) = some o)
    (_hterm : o.status = "delivered" ∨ o.status = "cancelled")
    (hs : s ∈ statusEnum)
    (hp : o.paymentMethod ∈ paymentEnum) :
    (updateOrderStatus orders seq oid s).1 = .updated o.orderId s
    ∧ (updateOrderStatus orders seq oid s).2.1 =
        orders.map (fun x =>
          if x.orderId == oid then { o with status := s, isNew := false } else x) := by
  rw [updateOrderStatus_spec orders seq oid s o hfind hs hp]
  exact ⟨rfl, rfl⟩

theorem updateOrderStatus_ignores_terminal_witness :
    (updateOrderStatus [mkOrder "ORD100002" "cancelled" 59 5] 3
        "ORD100002" "packed").1
      = .updated "ORD100002" "packed" :=
  (updateOrderStatus_ignores_terminal [mkOrder "ORD100002" "cancelled" 59 5] 3
    "ORD100002" "packed" (mkOrder "ORD100002" "cancelled" 59 5)
    (by decide) (by decide) (by decide) (by decide)).1

/-- C6: an order persisted with allocated sequence value `seq + 1` receives
the identifier `ORD` followed by the decimal rendering of
`100000 + (seq + 1)`, assigned at first successful persistence (one counter
increment); a later save of an already persisted (hence non-new) document
leaves the identifier and the counter untouched. -/
theorem orderId_rendered_once_and_immutable (seq : Nat) (doc : OrderDoc)
    (hvs : doc.status ∈ statusEnum) (hvp : doc.paymentMethod ∈ paymentEnum) :
    (doc.isNew = true → doc.orderId = "" →
      saveOrder seq doc =
        (seq + 1,
         some { doc with
                  orderId := "ORD" ++ natToDecimal (100000 + (seq + 1))
                  isNew := false }))
    ∧ (doc.isNew = false →
      saveOrder seq doc = (seq, some { doc with isNew := false })) := by
  constructor
  · intro hnew hid
    simp [saveOrder, preSaveHook, counterAlloc, renderOrderId, validOrder,
      hnew, hid, hvs, hvp]
  · intro hold
    simp [saveOrder, preSaveHook, validOrder, hold, hvs, hvp]

theorem orderId_rendered_once_and_immutable_witness :
    saveOrder 0 freshOrder =
      (1, some { freshOrder with
                   orderId := "ORD" ++ natToDecimal (100000 + (0 + 1))
                   isNew := false })
    ∧ saveOrder 41 (mkOrder "ORD100007" "shipped" 59 5) =
        (41, some { mkOrder "ORD100007" "shipped" 59 5 with isNew := false }) :=
  ⟨(orderId_rendered_once_and_immutable 0 freshOrder (by decide) (by decide)).1 rfl rfl,
   (orderId_rendered_once_and_immutable 41 (mkOrder "ORD100007" "shipped" 59 5)
      (by decide) (by decide)).2 rfl⟩

/-- C10: a successful status update changes only the status field of the
stored order: identifier, user reference, customer identifier, products,
total amount, delivery address, payment method and creation timestamps are
unchanged; the counter sequence is untouched because the pre-save hook does
not fire on a non-new document. -/
theorem updateOrderStatus_frame (orders : List OrderDoc) (seq : Nat)
    (oid s : String) (o : OrderDoc)
    (hfind : orders.find? (fun x => x.orderId == oid) = some o)
    (hs : s ∈ statusEnum)
    (hp : o.paymentMethod ∈ paymentEnum) :
    ∃ saved : OrderDoc,
      updateOrderStatus orders seq oid s =
        (.updated o.orderId s,
         orders.map (fun x => if x.orderId == oid then saved else x), seq)
      ∧ saved.status = s
      ∧ saved.orderId = o.orderId
      ∧ saved.user = o.user
      ∧ saved.customerId = o.customerId
      ∧ saved.products = o.products
      ∧ saved.totalAmount = o.totalAmount
      ∧ saved.deliveryAddress = o.deliveryAddress
      ∧ saved.paymentMethod = o.paymentMethod
      ∧ saved.orderDate = o.orderDate
      ∧ saved.createdAt = o.createdAt := by
  exact ⟨{ o with status := s, isNew := false },
    updateOrderStatus_spec orders seq oid s o hfind hs hp,
    rfl, rfl, rfl, rfl, rfl, rfl, rfl, rfl, rfl, rfl⟩

theorem updateOrderStatus_frame_witness :
    ∃ saved : OrderDoc,
      updateOrderStatus [mkOrder "ORD100003" "processing" 100 9] 2
          "ORD100003" "shipped" =
        (.updated "ORD100003" "shipped",
         [mkOrder "ORD100003" "processing" 100 9].map
           (fun x => if x.orderId == "ORD100003" then saved else x), 2)
      ∧ saved.status = "shipped"
      ∧ saved.orderId = "ORD100003"
      ∧ saved.user = "u1"
      ∧ saved.customerId = "CUST1"
      ∧ saved.products = []
      ∧ saved.totalAmount = 100
      ∧ saved.deliveryAddress = "12 Lane"
      ∧ saved.paymentMethod = "cash"
      ∧ saved.orderDate = 9
      ∧ saved.createdAt = 9 :=
  updateOrderStatus_frame [mkOrder "ORD100003" "processing" 100 9] 2
    "ORD100003" "shipped" (mkOrder "ORD100003" "processing" 100 9)
    (by decide) (by decide) (by decide)

/-- C3: for every line-item list, createOrder derives the financial fields
of the persisted order by the fixed formulas: subtotal is the sum of
price times quantity over the items, tax is 8 percent of the subtotal,
shipping is 0 exactly when the subtotal exceeds 499 and 5.99 otherwise
(so subtotal 499 still pays the fee), and the total is their sum. -/
theorem createOrder_financials (users : List RegUser) (orders : List OrderDoc)
    (seq now : Nat) (userId : String) (products : List ProductInput)
    (da pm : String) (uw : Bool) (user : RegUser)
    (hfind : users.find? (fun u => u.id == userId) = some user)
    (hpay : (if uw then "wallet" else pm) ∈ paymentEnum) :
    ∃ saved : OrderDoc,
      (createOrder users orders seq now userId products da pm uw).2.1
          = orders ++ [saved]
      ∧ saved.subtotal = (products.map (fun i => i.price * i.quantity)).sum
      ∧ saved.tax = saved.subtotal * (8 / 100)
      ∧ (saved.subtotal > 499 → saved.shipping = 0)
      ∧ (saved.subtotal ≤ 499 → saved.shipping = 599 / 100)
      ∧ saved.totalAmount = saved.subtotal + saved.tax + saved.shipping := by
  simp only [createOrder, hfind]
  rw [saveOrder_new _ _ rfl rfl ?hvs hpay]
  case hvs => exact (by decide : ("order_confirmed" : String) ∈ statusEnum)
  refine ⟨_, rfl, ?_, rfl, ?_, ?_, rfl⟩
  · exact (foldl_add_mul products 0).trans (zero_add _)
  · intro h
    simp only at h ⊢
    rw [if_pos h]
  · intro h
    simp only at h ⊢
    rw [if_neg (not_lt.mpr h)]

theorem createOrder_financials_witness :
    ∃ saved : OrderDoc,
      (createOrder [sampleUser] [] 0 99 "u1" [item300x2] "addr" "cash" false).2.1
          = [] ++ [saved]
      ∧ saved.subtotal = ([item300x2].map (fun i => i.price * i.quantity)).sum
      ∧ saved.tax = saved.subtotal * (8 / 100)
      ∧ (saved.subtotal > 499 → saved.shipping = 0)
      ∧ (saved.subtotal ≤ 499 → saved.shipping = 599 / 100)
      ∧ saved.totalAmount = saved.subtotal + saved.tax + saved.shipping :=
  createOrder_financials [sampleUser] [] 0 99 "u1" [item300x2] "addr" "cash"
    false sampleUser (by decide) (by decide)

/-- C4 as stated is false: createOrder performs no line-item validation; an
empty line-item list is accepted, the call reports success with total
5.99 (the shipping fee on a zero subtotal), and the order is persisted. -/
theorem createOrder_empty_items_counterexample :
    (createOrder [sampleUser] [] 0 1234 "u1" [] "addr" "cash" false).1
        = .created { orderId := "ORD100001", totalAmount := 599 / 100
                     status := "order_confirmed", orderDate := 1234 }
      ∧ ((createOrder [sampleUser] [] 0 1234 "u1" [] "addr" "cash" false).2.1).length
          = 1 := by
  have hfind : ([sampleUser].find? (fun u => u.id == "u1")) = some sampleUser := by
    decide
  constructor
  · simp only [createOrder, hfind]
    rw [saveOrder_new _ _ rfl rfl ?hvs1 ?hpay1]
    case hvs1 => decide
    case hpay1 => decide
    simp only [CreateOrderResponse.created.injEq, CreateOrderResult.mk.injEq]
    refine ⟨by decide, ?_, trivial, trivial⟩
    norm_num [List.foldl]
  · simp only [createOrder, hfind]
    rw [saveOrder_new _ _ rfl rfl ?hvs2 ?hpay2]
    case hvs2 => decide
    case hpay2 => decide
    simp

/-- C4 corrected: createOrder never fails over the line items: for every
submitted list (empty included, any quantities, any prices), provided the
customer exists and the effective payment method is in the stored
vocabulary, the call succeeds and persists the order. -/
theorem createOrder_accepts_any_items (users : List RegUser)
    (orders : List OrderDoc) (seq now : Nat) (userId : String)
    (products : List ProductInput) (da pm : String) (uw : Bool) (user : RegUser)
    (hfind : users.find? (fun u => u.id == userId) = some user)
    (hpay : (if uw then "wallet" else pm) ∈ paymentEnum) :
    ∃ r saved,
      createOrder users orders seq now userId products da pm uw
        = (.created r, orders ++ [saved], seq + 1) := by
  simp only [createOrder, hfind]
  rw [saveOrder_new _ _ rfl rfl ?hvs hpay]
  case hvs => exact (by decide : ("order_confirmed" : String) ∈ statusEnum)
  exact ⟨_, _, rfl⟩

theorem createOrder_accepts_any_items_witness :
    ∃ r saved,
      createOrder [sampleUser] [] 6 77 "u1"
          [{ id := "p9", name := "Oddity", price := -3, quantity := 0
             images := none, category := none }] "addr" "upi" false
        = (.created r, [] ++ [saved], 6 + 1) :=
  createOrder_accepts_any_items [sampleUser] [] 6 77 "u1"
    [{ id := "p9", name := "Oddity", price := -3, quantity := 0
       images := none, category := none }] "addr" "upi" false sampleUser
    (by decide) (by decide)

/-- C5: every successful createOrder persists the order with initial status
order_confirmed and responds with exactly the created order identifier,
total amount, status and creation timestamp. -/
theorem createOrder_persists_confirmed (users : List RegUser)
    (orders : List OrderDoc) (seq now : Nat) (userId : String)
    (products : List ProductInput) (da pm : String) (uw : Bool) (user : RegUser)
    (hfind : users.find? (fun u => u.id == userId) = some user)
    (hpay : (if uw then "wallet" else pm) ∈ paymentEnum) :
    ∃ saved : OrderDoc,
      createOrder users orders seq now userId products da pm uw =
        (.created { orderId := saved.orderId, totalAmount := saved.totalAmount
                    status := saved.status, orderDate := saved.orderDate },
         orders ++ [saved], seq + 1)
      ∧ saved.status = "order_confirmed"
      ∧ saved.orderDate = now := by
  simp only [createOrder, hfind]
  rw [saveOrder_new _ _ rfl rfl ?hvs hpay]
  case hvs => exact (by decide : ("order_confirmed" : String) ∈ statusEnum)
  exact ⟨_, rfl, rfl, rfl⟩

theorem createOrder_persists_confirmed_witness :
    ∃ saved : OrderDoc,
      createOrder [sampleUser] [] 0 555 "u1" [item50x1] "addr" "card" false =
        (.created { orderId := saved.orderId, totalAmount := saved.totalAmount
                    status := saved.status, orderDate := saved.orderDate },
         [] ++ [saved], 0 + 1)
      ∧ saved.status = "order_confirmed"
      ∧ saved.orderDate = 555 :=
  createOrder_persists_confirmed [sampleUser] [] 0 555 "u1" [item50x1] "addr"
    "card" false sampleUser (by decide) (by decide)

/-- C9: when the wallet flag is set, the persisted payment method is wallet
regardless of the submitted value; when it is unset, the submitted value is
kept. -/
theorem createOrder_wallet_override (users : List RegUser)
    (orders : List OrderDoc) (seq now : Nat) (userId : String)
    (products : List ProductInput) (da pm : String) (uw : Bool) (user : RegUser)
    (hfind : users.find? (fun u => u.id == userId) = some user)
    (hpay : (if uw then "wallet" else pm) ∈ paymentEnum) :
    ∃ saved : OrderDoc,
      (createOrder users orders seq now userId products da pm uw).2.1
          = orders ++ [saved]
      ∧ (uw = true → saved.paymentMethod = "wallet")
      ∧ (uw = false → saved.paymentMethod = pm) := by
  simp only [createOrder, hfind]
  rw [saveOrder_new _ _ rfl rfl ?hvs hpay]
  case hvs => exact (by decide : ("order_confirmed" : String) ∈ statusEnum)
  refine ⟨_, rfl, ?_, ?_⟩ <;> intro h <;> simp [h]

theorem createOrder_wallet_override_witness :
    (∃ saved : OrderDoc,
      (createOrder [sampleUser] [] 0 8 "u1" [item50x1] "addr" "card" true).2.1
          = [] ++ [saved]
      ∧ (true = true → saved.paymentMethod = "wallet")
      ∧ (true = false → saved.paymentMethod = "card"))
    ∧ (∃ saved : OrderDoc,
      (createOrder [sampleUser] [] 0 8 "u1" [item50x1] "addr" "card" false).2.1
          = [] ++ [saved]
      ∧ (false = true → saved.paymentMethod = "wallet")
      ∧ (false = false → saved.paymentMethod = "card")) :=
  ⟨createOrder_wallet_override [sampleUser] [] 0 8 "u1" [item50x1] "addr"
      "card" true sampleUser (by decide) (by decide),
   createOrder_wallet_override [sampleUser] [] 0 8 "u1" [item50x1] "addr"
      "card" false sampleUser (by decide) (by decide)⟩

/-- C7: getOrderStatistics counts as pending exactly the orders whose
status lies in the in-flight set, sums revenue over delivered orders only,
reports the total order count, and divides revenue by the total count for
the average order value, yielding 0 (not a fault) on an empty collection. -/
theorem getOrderStats_spec (orders : List OrderDoc) (customerCount : Nat) :
    (getOrderStats orders customerCount).pendingOrders
        = (orders.filter (fun o => decide
            (o.status = "order_confirmed" ∨ o.status = "processing"
              ∨ o.status = "packed" ∨ o.status = "shipped"
              ∨ o.status = "out_for_delivery"))).length
    ∧ (getOrderStats orders customerCount).totalRevenue
        = (orders.map
            (fun o => if o.status = "delivered" then o.totalAmount else 0)).sum
    ∧ (getOrderStats orders customerCount).totalOrders = orders.length
    ∧ (orders.length = 0 → (getOrderStats orders customerCount).avgOrderValue = 0)
    ∧ (0 < orders.length →
        (getOrderStats orders customerCount).avgOrderValue
          = (getOrderStats orders customerCount).totalRevenue
              / (orders.length : ℚ)) := by
  refine ⟨?_, ?_, rfl, ?_, ?_⟩
  · have hfun : ∀ o : OrderDoc, pendingStatusSet.contains o.status
        = decide (o.status = "order_confirmed" ∨ o.status = "processing"
            ∨ o.status = "packed" ∨ o.status = "shipped"
            ∨ o.status = "out_for_delivery") := by
      intro o
      simp [pendingStatusSet]
    simp only [getOrderStats]
    exact congrArg List.length (List.filter_congr (fun o _ => hfun o))
  · simpa only [getOrderStats] using sum_filter_delivered orders
  · intro h
    simp [getOrderStats, h]
  · intro h
    simp [getOrderStats, h]

theorem getOrderStats_spec_witness :
    (getOrderStats [] 7).avgOrderValue = 0
    ∧ (getOrderStats [mkOrder "ORD100009" "delivered" 100 1] 7).avgOrderValue
        = (getOrderStats [mkOrder "ORD100009" "delivered" 100 1] 7).totalRevenue
            / (([mkOrder "ORD100009" "delivered" 100 1] : List OrderDoc).length : ℚ) :=
  ⟨(getOrderStats_spec [] 7).2.2.2.1 rfl,
   (getOrderStats_spec [mkOrder "ORD100009" "delivered" 100 1] 7).2.2.2.2
     (by decide)⟩

/-- C8: for page and page size at least 1, the admin listing reports
totalPages as the ceiling of the matching count over the page size,
hasNextPage exactly when the page is below totalPages, hasPrevPage exactly
when the page is above 1, and an out-of-range page yields an empty order
list with the metadata still computed; in particular 23 matching orders
with page size 10 give, on page 3, exactly 3 orders, totalPages 3, no next
page and a previous page. -/
theorem getAllOrders_pagination (orders : List OrderDoc) (page limit : Nat)
    (status : Option String) (hp : 1 ≤ page) (hl : 1 ≤ limit) :
    (getAllOrders orders page limit status).pagination.totalPages
        = ((orders.filter (queryPred status)).length + limit - 1) / limit
    ∧ ((getAllOrders orders page limit status).pagination.hasNextPage = true
        ↔ page < (getAllOrders orders page limit status).pagination.totalPages)
    ∧ ((getAllOrders orders page limit status).pagination.hasPrevPage = true
        ↔ 1 < page)
    ∧ ((getAllOrders orders page limit status).pagination.totalPages < page →
        (getAllOrders orders page limit status).data = [])
    ∧ (getAllOrders (List.replicate 23 (mkOrder "ORD1" "processing" 10 4))
          3 10 none).data.length = 3
    ∧ (getAllOrders (List.replicate 23 (mkOrder "ORD1" "processing" 10 4))
          3 10 none).pagination.totalPages = 3
    ∧ (getAllOrders (List.replicate 23 (mkOrder "ORD1" "processing" 10 4))
          3 10 none).pagination.hasNextPage = false
    ∧ (getAllOrders (List.replicate 23 (mkOrder "ORD1" "processing" 10 4))
          3 10 none).pagination.hasPrevPage = true := by
  have hfilter23 : (List.replicate 23 (mkOrder "ORD1" "processing" 10 4)).filter
      (queryPred none) = List.replicate 23 (mkOrder "ORD1" "processing" 10 4) := by
    simp [queryPred]
  refine ⟨?_, ?_, ?_, ?_, ?_, ?_, ?_, ?_⟩
  · simpa only [getAllOrders] using
      ceilDiv_eq (orders.filter (queryPred status)).length limit hl
  · simp only [getAllOrders, decide_eq_true_eq]
  · simp only [getAllOrders, decide_eq_true_eq]
  · intro hgt
    simp only [getAllOrders] at hgt ⊢
    have htot : (orders.filter (queryPred status)).length
        ≤ ceilDiv (orders.filter (queryPred status)).length limit * limit := by
      rw [ceilDiv_eq _ _ hl]
      exact le_pred_div_mul _ _ hl
    have hskip : (orders.filter (queryPred status)).length ≤ (page - 1) * limit := by
      calc (orders.filter (queryPred status)).length
          ≤ ceilDiv (orders.filter (queryPred status)).length limit * limit := htot
        _ ≤ (page - 1) * limit := Nat.mul_le_mul_right _ (by omega)
    have hdrop : (sortByDateDesc (orders.filter (queryPred status))).drop
        ((page - 1) * limit) = [] := by
      apply List.drop_eq_nil_of_le
      rw [length_sortByDateDesc]
      exact hskip
    simp [hdrop]
  · simp only [getAllOrders, hfilter23]
    rw [List.length_map, List.length_take, List.length_drop,
      length_sortByDateDesc, List.length_replicate]
    omega
  · simp only [getAllOrders, hfilter23, List.length_replicate]
    rw [ceilDiv_eq 23 10 (by norm_num)]
  · simp only [getAllOrders, hfilter23, List.length_replicate]
    rw [ceilDiv_eq 23 10 (by norm_num)]
    decide
  · simp only [getAllOrders]
    simp

theorem getAllOrders_pagination_witness :
    (getAllOrders [] 2 5 none).pagination.totalPages
        = ((([] : List OrderDoc).filter (queryPred none)).length + 5 - 1) / 5
    ∧ ((getAllOrders [] 2 5 none).pagination.hasNextPage = true
        ↔ 2 < (getAllOrders [] 2 5 none).pagination.totalPages)
    ∧ ((getAllOrders [] 2 5 none).pagination.hasPrevPage = true ↔ 1 < 2)
    ∧ ((getAllOrders [] 2 5 none).pagination.totalPages < 2 →
        (getAllOrders [] 2 5 none).data = [])
    ∧ (getAllOrders (List.replicate 23 (mkOrder "ORD1" "processing" 10 4))
          3 10 none).data.length = 3
    ∧ (getAllOrders (List.replicate 23 (mkOrder "ORD1" "processing" 10 4))
          3 10 none).pagination.totalPages = 3
    ∧ (getAllOrders (List.replicate 23 (mkOrder "ORD1" "processing" 10 4))
          3 10 none).pagination.hasNextPage = false
    ∧ (getAllOrders (List.replicate 23 (mkOrder "ORD1" "processing" 10 4))
          3 10 none).pagination.hasPrevPage = true :=
  getAllOrders_pagination [] 2 5 none (by decide) (by decide)

end Bba
